import Mathlib

/-!
Verification of the FMI 2.0 callback-function table
(`src/callbackFunctions/callbackFunctions/main.cpp`): the severity mapper
`fmi2StatusString`, the variadic `logger`, the memory shims `allocateMemory`
and `freeMemory`, and the no-op `stepFinished`.

The C functions delegate to the C standard library (`calloc`, `free`,
`vsnprintf`, `vsprintf`, `printf`).  Those are embedded explicitly: the heap
is a list of live blocks (address, bytes) plus a fresh-address counter,
`calloc` follows the C semantics (zero-initialised block, null on overflow of
the requested size or on out-of-memory, the latter modelled by an `oom` flag),
and printf-style formatting is embedded for the conversions the repository
uses (`%s`, `%d`, `%%`), with any other byte copied verbatim.

One point of the source needs explicit nondeterminism: `logger` calls
`vsnprintf(NULL, 0, message, args)` to measure the message and then reuses
the same `args` for `vsprintf` without `va_copy` or a second `va_start`.
Per C11 7.16.1p3 and 7.21.6.12 the va_list is indeterminate after the
measuring call, so the rendering pass formats values that need not be the
call's arguments.  The embedding threads this through as a separate `indet`
argument list the rendering pass reads; a template without conversion
specifiers invokes no `va_arg` and ignores it.  The further reaches of this
undefined behavior (a crash, or the out-of-bounds write of an unbounded
`vsprintf` into the measured buffer) are outside the state the embedding
tracks and are treated in the theorems about the rendering pass.
-/

namespace FMICallbacks

/-- Severity labels are wrapped in ANSI terminal color annotations; this is the
escape character `\x1B` that starts each such annotation. -/
def escChar : Char := Char.ofNat 27

/-- Macro `RED(message)` from main.cpp: `"\x1B[31m" message "\x1B[0m"`. -/
def RED (message : String) : String := "\x1B[31m" ++ message ++ "\x1B[0m"

/-- Macro `GREEN(message)` from main.cpp: `"\x1B[32m" message "\x1B[0m"`. -/
def GREEN (message : String) : String := "\x1B[32m" ++ message ++ "\x1B[0m"

/-- Macro `YELLOW(message)` from main.cpp: `"\x1B[33m" message "\x1B[0m"`. -/
def YELLOW (message : String) : String := "\x1B[33m" ++ message ++ "\x1B[0m"

/-- Macro `BLUE(message)` from main.cpp (unused by the functions below). -/
def BLUE (message : String) : String := "\x1B[34m" ++ message ++ "\x1B[0m"

/-- The `fmi2Status` enumeration of main.h: `fmi2OK = 0`, `fmi2Warning = 1`,
`fmi2Discard = 2`, `fmi2Error = 3`, `fmi2Fatal = 4`, `fmi2Pending = 5`.
A C enum value is an `int`, so the embedding takes an `Int` and out-of-range
ordinals are representable. -/
def fmi2OK : Int := 0

def fmi2Warning : Int := 1

def fmi2Discard : Int := 2

def fmi2Error : Int := 3

def fmi2Fatal : Int := 4

def fmi2Pending : Int := 5

/-- `fmi2StatusString` from main.cpp: the switch over the status, including
the source's misspelled default label `"Unknwon"`. -/
def fmi2StatusString (status : Int) : String :=
  if status = fmi2OK then GREEN "OK"
  else if status = fmi2Warning then YELLOW "Warning"
  else if status = fmi2Discard then YELLOW "Discard"
  else if status = fmi2Error then RED "Error"
  else if status = fmi2Fatal then RED "Fatal"
  else if status = fmi2Pending then YELLOW "Pending"
  else RED "Unknwon"

/-- State machine stripping ANSI color annotations from a character list:
outside an annotation (`inEsc = false`) ordinary characters are kept and
`\x1B` switches to skipping; inside (`inEsc = true`) characters are dropped
up to and including the terminating `m`. -/
def stripAnsiAux : Bool → List Char → List Char
  | _, [] => []
  | true, c :: rest =>
      if c = 'm' then stripAnsiAux false rest else stripAnsiAux true rest
  | false, c :: rest =>
      if c = escChar then stripAnsiAux true rest
      else c :: stripAnsiAux false rest

/-- Plain text of a possibly color-annotated string: the ANSI color
annotations (from `\x1B` to the closing `m`) are removed. -/
def stripColor (s : String) : String := String.mk (stripAnsiAux false s.data)

/-- A typed variadic argument for printf-style formatting, as used through the
`...`/`va_list` parameters of `logger`. -/
inductive FmtArg where
  | str : String → FmtArg
  | int : Int → FmtArg
deriving DecidableEq

/-- Printf-style placeholder substitution over the template's characters, for
the conversions used in this repository: `%s` consumes a string argument,
`%d` an integer argument, `%%` is a literal percent sign, and every other
character is copied verbatim.  This is the common semantics of `vsnprintf`
and `vsprintf` for templates whose placeholders match the arguments. -/
def formatChars : List Char → List FmtArg → List Char
  | [], _ => []
  | '%' :: 's' :: rest, FmtArg.str s :: args => s.data ++ formatChars rest args
  | '%' :: 'd' :: rest, FmtArg.int n :: args =>
      (toString n).data ++ formatChars rest args
  | '%' :: '%' :: rest, args => '%' :: formatChars rest args
  | c :: rest, args => c :: formatChars rest args

/-- The formatted message produced from a template and matching arguments. -/
def formatMessage (template : String) (args : List FmtArg) : String :=
  String.mk (formatChars template.data args)

/-- Result of the measuring pass `vsnprintf(NULL, 0, message, args)`: the
number of characters of the formatted message, excluding the terminator. -/
def vsnprintfLen (message : String) (args : List FmtArg) : Nat :=
  (formatMessage message args).length

/-- The bytes the rendering pass `vsprintf(buffer, message, args)` writes
into the buffer: the formatted text of the values the va_list supplies at
that point, followed by the NUL terminator.  In main.cpp the va_list was
already consumed by the measuring `vsnprintf` and is not re-initialised with
`va_copy` or `va_start`, so per C11 its value is indeterminate when the
rendering pass reads it: `indet` is an arbitrary list that need not equal
the call's actual arguments.  A template without conversion specifiers
invokes no `va_arg` and ignores `indet`. -/
def vsprintfWritten (message : String) (indet : List FmtArg) : List Char :=
  (formatMessage message indet).data ++ [Char.ofNat 0]

/-- Largest value of the C type `size_t` (64-bit), bounding the byte count a
single allocation request can describe. -/
def SIZE_MAX : Nat := 2 ^ 64 - 1

/-- The process heap as the C allocator exposes it to this module: the live
blocks with their zero-based addresses and byte contents, and a counter
supplying a fresh address for the next allocation. -/
structure Heap where
  nextAddr : Nat
  blocks : List (Nat × List Nat)
deriving DecidableEq

/-- A heap is wellformed when every live block's address was issued by the
fresh-address counter. -/
def Heap.wf (h : Heap) : Prop := ∀ b ∈ h.blocks, b.1 < h.nextAddr

/-- C `calloc(nobj, size)`: returns null and leaves the heap unchanged when
the requested byte count `nobj * size` is not representable in `size_t` or
the allocator is out of memory (`oom`); otherwise returns a fresh non-null
address of a new zero-initialised block of `nobj * size` bytes. -/
def Heap.calloc (h : Heap) (oom : Bool) (nobj size : Nat) :
    Option Nat × Heap :=
  if nobj * size > SIZE_MAX ∨ oom then (none, h)
  else
    (some h.nextAddr,
     { nextAddr := h.nextAddr + 1,
       blocks := (h.nextAddr, List.replicate (nobj * size) 0) :: h.blocks })

/-- C `free(obj)`: `free(NULL)` is a no-op; freeing a non-null address removes
the block at that address from the heap. -/
def Heap.free (h : Heap) (obj : Option Nat) : Heap :=
  match obj with
  | none => h
  | some a => { h with blocks := h.blocks.filter (fun b => b.1 ≠ a) }

/-- Contents of the live block at address `a`, if any. -/
def Heap.lookup (h : Heap) (a : Nat) : Option (List Nat) :=
  (h.blocks.find? (fun b => b.1 = a)).map (fun b => b.2)

/-- `allocateMemory` from main.cpp: delegates to `calloc(nobj, size)` and
returns the resulting pointer unchanged. -/
def allocateMemory (h : Heap) (oom : Bool) (nobj size : Nat) :
    Option Nat × Heap :=
  Heap.calloc h oom nobj size

/-- `freeMemory` from main.cpp: delegates to `free(obj)`. -/
def freeMemory (h : Heap) (obj : Option Nat) : Heap :=
  Heap.free h obj

/-- `logger` from main.cpp: measures the formatted message with
`vsnprintf(NULL, 0, message, args)` while the va_list still holds the call's
actual arguments `args`, allocates a buffer of `size + 1` bytes with
`calloc`, renders into it with `vsprintf(msgBuffer, message, args)`, prints
the single line `[<status>][<category>][<instanceName>]: <buffer>\n`, and
frees the buffer unconditionally.  Because the source reuses the va_list for
the rendering pass without `va_copy`, the rendering pass formats the
indeterminate values `indet`, not `args`; the line printed carries
`formatMessage message indet`.  The returned string is the line written to
standard output; the returned heap is the heap after the call. -/
def logger (h : Heap) (oom : Bool) (instanceName : String) (status : Int)
    (category : String) (message : String) (args indet : List FmtArg) :
    String × Heap :=
  let size := vsnprintfLen message args
  let r := Heap.calloc h oom (size + 1) 1
  let line := "[" ++ fmi2StatusString status ++ "][" ++ category ++ "]["
      ++ instanceName ++ "]: " ++ formatMessage message indet ++ "\n"
  (line, Heap.free r.2 r.1)

/-- One invocation of `logger`, with its arguments: instance name, status,
category, message template, and the variadic arguments. -/
structure LogCall where
  instanceName : String
  status : Int
  category : String
  message : String
  args : List FmtArg

/-- A sequence of `logger` calls issued in order from a single thread, each
paired with the values its rendering pass reads from the indeterminate
va_list: returns the output lines in the order written and the final
heap. -/
def runCalls (h : Heap) (oom : Bool) :
    List (LogCall × List FmtArg) → List String × Heap
  | [] => ([], h)
  | (c, indet) :: rest =>
      let r := logger h oom c.instanceName c.status c.category c.message
        c.args indet
      let rs := runCalls r.2 oom rest
      (r.1 :: rs.1, rs.2)

/-- Observable program state: the lines written to standard output and the
heap. -/
structure ProgState where
  out : List String
  heap : Heap
deriving DecidableEq

/-- `stepFinished` from main.cpp: the body is empty (a deliberate no-op), so
the program state is returned unchanged. -/
def stepFinished (componentEnvironment : Option Nat) (status : Int)
    (s : ProgState) : ProgState :=
  s

/-- The empty heap every example starts from. -/
def h0 : Heap := ⟨0, []⟩

/-- The heap after one successful one-byte allocation from the empty heap. -/
def h1x : Heap := ⟨1, [(0, [0])]⟩

/-- Freeing whatever pointer `calloc` just returned restores the live blocks
of a wellformed heap: on failure both steps are no-ops, on success the freed
address is fresh so exactly the new block is removed. -/
theorem calloc_free_blocks (h : Heap) (oom : Bool) (nobj sz : Nat)
    (hwf : Heap.wf h) :
    (Heap.free (Heap.calloc h oom nobj sz).2
      (Heap.calloc h oom nobj sz).1).blocks = h.blocks := by
  by_cases hc : nobj * sz > SIZE_MAX ∨ oom = true
  · simp [Heap.calloc, hc, Heap.free]
  · simp [Heap.calloc, hc, Heap.free, List.filter_cons]
    intro a b hab
    exact Nat.ne_of_lt (hwf (a, b) hab)

/-- C1: for every status outside the enumeration `fmi2StatusString` is meant
to answer "Unknown", but the source's default case misspells the label: at
the out-of-range status 6 the plain text of the returned label is "Unknwon",
not "Unknown". -/
theorem fmi2StatusString_out_of_range_typo :
    stripColor (fmi2StatusString 6) = "Unknwon" ∧
    stripColor (fmi2StatusString 6) ≠ "Unknown" := by
  decide

/-- C2: the call `logger(_, "inst", OK, "cat", "hello %s", "world")` is meant
to write the line `[OK][cat][inst]: hello world`, but main.cpp reuses the
va_list for the rendering `vsprintf` after the measuring `vsnprintf`
consumed it, without `va_copy`, so the rendering pass formats indeterminate
values: when the indeterminate va_list yields a value other than `"world"`,
the line written is not the claimed one. -/
theorem logger_va_list_reuse_garbles :
    stripColor (logger h0 false "inst" fmi2OK "cat" "hello %s"
        [FmtArg.str "world"] [FmtArg.str "garbage"]).1 =
      "[OK][cat][inst]: hello garbage\n" ∧
    stripColor (logger h0 false "inst" fmi2OK "cat" "hello %s"
        [FmtArg.str "world"] [FmtArg.str "garbage"]).1 ≠
      "[OK][cat][inst]: hello world\n" := by
  decide

/-- C3: `allocateMemory(count, elementSize)` either returns null or a block of
`count * elementSize` bytes in which every byte is zero; in particular
`allocateMemory(4, 8)` on success returns a 32-byte block of zeros. -/
theorem allocateMemory_zeroed :
    (∀ (h : Heap) (oom : Bool) (nobj sz : Nat),
        (allocateMemory h oom nobj sz).1 = none ∨
        ∃ a bytes,
          (allocateMemory h oom nobj sz).1 = some a ∧
          Heap.lookup (allocateMemory h oom nobj sz).2 a = some bytes ∧
          bytes.length = nobj * sz ∧ ∀ x ∈ bytes, x = 0) ∧
    (∃ a bytes,
        (allocateMemory h0 false 4 8).1 = some a ∧
        Heap.lookup (allocateMemory h0 false 4 8).2 a = some bytes ∧
        bytes.length = 4 * 8 ∧ ∀ x ∈ bytes, x = 0) := by
  constructor
  · intro h oom nobj sz
    by_cases hc : nobj * sz > SIZE_MAX ∨ oom
    · left
      simp [allocateMemory, Heap.calloc, hc]
    · right
      refine ⟨h.nextAddr, List.replicate (nobj * sz) 0, ?_, ?_, ?_, ?_⟩
      · simp [allocateMemory, Heap.calloc, hc]
      · simp [allocateMemory, Heap.calloc, hc, Heap.lookup, List.find?]
      · simp
      · intro x hx
        exact List.eq_of_mem_replicate hx
  · exact ⟨0, List.replicate 32 0, by decide, by decide, by decide, by decide⟩

/-- C4: when the requested byte count `count * elementSize` is not
representable in `size_t`, `allocateMemory` returns null and leaves the heap
unchanged — never a non-null block of a wrong size. -/
theorem allocateMemory_overflow_null (h : Heap) (oom : Bool) (nobj sz : Nat)
    (hov : nobj * sz > SIZE_MAX) :
    allocateMemory h oom nobj sz = (none, h) := by
  simp [allocateMemory, Heap.calloc, hov]

/-- Witness for `allocateMemory_overflow_null` at a concrete overflowing
request. -/
theorem allocateMemory_overflow_null_witness :
    2 ^ 64 * 1 > SIZE_MAX ∧ allocateMemory h0 false (2 ^ 64) 1 = (none, h0) :=
  ⟨by decide, allocateMemory_overflow_null h0 false (2 ^ 64) 1 (by decide)⟩

/-- C5: on the six enumeration values `fmi2StatusString` returns pairwise
distinct non-empty labels whose plain texts after stripping the color
annotation are exactly "OK", "Warning", "Discard", "Error", "Fatal",
"Pending"; the mapper is a pure function, so the same input always yields
the same label. -/
theorem fmi2StatusString_labels :
    stripColor (fmi2StatusString fmi2OK) = "OK" ∧
    stripColor (fmi2StatusString fmi2Warning) = "Warning" ∧
    stripColor (fmi2StatusString fmi2Discard) = "Discard" ∧
    stripColor (fmi2StatusString fmi2Error) = "Error" ∧
    stripColor (fmi2StatusString fmi2Fatal) = "Fatal" ∧
    stripColor (fmi2StatusString fmi2Pending) = "Pending" ∧
    List.Nodup [fmi2StatusString 0, fmi2StatusString 1, fmi2StatusString 2,
      fmi2StatusString 3, fmi2StatusString 4, fmi2StatusString 5] ∧
    (∀ st ∈ [fmi2OK, fmi2Warning, fmi2Discard, fmi2Error, fmi2Fatal,
        fmi2Pending], fmi2StatusString st ≠ "") ∧
    (∀ st : Int, fmi2StatusString st = fmi2StatusString st) := by
  refine ⟨?_, ?_, ?_, ?_, ?_, ?_, ?_, ?_, fun st => rfl⟩ <;> decide

/-- C6: `freeMemory` on a null block is a no-op that leaves the heap
unchanged, and `freeMemory` on a block previously returned by
`allocateMemory` releases exactly that block, restoring the live blocks the
heap had before the allocation. -/
theorem freeMemory_null_noop_and_releases :
    (∀ h : Heap, freeMemory h none = h) ∧
    (∀ (h : Heap) (oom : Bool) (nobj sz a : Nat) (h1 : Heap),
        Heap.wf h → allocateMemory h oom nobj sz = (some a, h1) →
        (freeMemory h1 (some a)).blocks = h.blocks) := by
  constructor
  · intro h
    rfl
  · intro h oom nobj sz a h1 hwf halloc
    have key := calloc_free_blocks h oom nobj sz hwf
    rw [show Heap.calloc h oom nobj sz = (some a, h1) from halloc] at key
    exact key

/-- Witness for `freeMemory_null_noop_and_releases`: freeing null on the
empty heap, and freeing the one block a concrete allocation returned. -/
theorem freeMemory_null_noop_and_releases_witness :
    freeMemory h0 none = h0 ∧ (freeMemory h1x (some 0)).blocks = h0.blocks :=
  ⟨freeMemory_null_noop_and_releases.1 h0,
   freeMemory_null_noop_and_releases.2 h0 false 1 1 0 h1x
     (by simp [Heap.wf, h0]) (by decide)⟩

/-- C7: every `logger` call frees its transient formatting buffer before
returning, so on a wellformed heap the live blocks after the call are exactly
the live blocks before it. -/
theorem logger_releases_buffer (h : Heap) (oom : Bool) (inst : String)
    (st : Int) (cat msg : String) (args indet : List FmtArg)
    (hwf : Heap.wf h) :
    (logger h oom inst st cat msg args indet).2.blocks = h.blocks :=
  calloc_free_blocks h oom (vsnprintfLen msg args + 1) 1 hwf

/-- Witness for `logger_releases_buffer` at a concrete call on the empty
heap. -/
theorem logger_releases_buffer_witness :
    (logger h0 false "inst" fmi2OK "cat" "hello %s"
        [FmtArg.str "world"] [FmtArg.str "garbage"]).2.blocks = h0.blocks :=
  logger_releases_buffer h0 false "inst" fmi2OK "cat" "hello %s"
    [FmtArg.str "world"] [FmtArg.str "garbage"] (by simp [Heap.wf, h0])

/-- C8: N sequential `logger` calls are meant to produce exactly their N
lines in issue order, but any conversion-bearing call renders through the
indeterminate va_list (no `va_copy` in main.cpp): even the same issued call
sequence yields different output lines under different indeterminate
states, and the underlying undefined behavior may terminate the process
mid-sequence, so the N lines are not guaranteed for every valid argument
sequence. -/
theorem runCalls_output_indeterminate :
    (runCalls h0 false
        [(⟨"inst", fmi2OK, "cat", "hello %s", [FmtArg.str "world"]⟩,
          [FmtArg.str "world"])]).1 ≠
    (runCalls h0 false
        [(⟨"inst", fmi2OK, "cat", "hello %s", [FmtArg.str "world"]⟩,
          [FmtArg.str "garbage"])]).1 := by
  decide

/-- C9: `stepFinished` is a no-op: for every component-environment handle and
status it returns the program state unchanged, writing no output and touching
no heap block. -/
theorem stepFinished_noop :
    ∀ (env : Option Nat) (st : Int) (s : ProgState),
      stepFinished env st s = s ∧ (stepFinished env st s).out = s.out ∧
      (stepFinished env st s).heap = s.heap :=
  fun env st s => ⟨rfl, rfl, rfl⟩

/-- C10: the `calloc(size + 1)` buffer is sized by measuring the call's
actual arguments, but the rendering pass formats the indeterminate va_list
instead (no `va_copy` in main.cpp) and `vsprintf` is unbounded, so the bytes
written are not bounded by `size + 1`: at the measured size 11 for
`"hello %s"` with `"world"`, an indeterminate value longer than `"world"`
makes the rendering pass write more than 12 bytes into the 12-byte
buffer. -/
theorem vsprintf_can_exceed_buffer :
    vsnprintfLen "hello %s" [FmtArg.str "world"] = 11 ∧
    (vsprintfWritten "hello %s"
        [FmtArg.str "indeterminate-garbage-longer-than-world"]).length >
      11 + 1 := by
  decide

end FMICallbacks
